import Mathlib

/-!
# CosmicEngine: the ascendant precision tests (`test-ascendant-precision.js`)

A shallow embedding of the helper functions and of the test driver of
`src/test-ascendant-precision.js`, followed by the properties proved about them.

Modelling conventions.

* A JavaScript number is modelled exactly: the helper functions are written over
  an arbitrary linearly ordered field with a floor function (`ℚ` for evaluation,
  `ℝ` for the statements about real angles).  Rounding of IEEE doubles, `NaN`
  and the infinities are outside the model.
* `a % b` is the JavaScript remainder: `a - b * trunc (a / b)`, with the sign of
  the dividend.
* `undefined` / a value of the wrong type is `none`.
* `console.log` output is not modelled; the places where formatting a value can
  throw (`x.toFixed` on something that is not a number, a property read on
  `undefined`) are.
-/

namespace CosmicEngine

/-! ## Numeric helpers -/

section Numeric

variable {K : Type} [LinearOrderedField K] [FloorRing K]

/-- `Math.trunc`: rounding towards zero. -/
def jsTrunc (x : K) : ℤ := if 0 ≤ x then ⌊x⌋ else ⌈x⌉

/-- The JavaScript remainder operator `a % b` (sign of the dividend). -/
def jsMod (a b : K) : K := a - b * (jsTrunc (a / b) : K)

/-- The expression `(x % 360 + 360) % 360` that the source repeats inline. -/
def normalize360 (x : K) : K := jsMod (jsMod x 360 + 360) 360

/-- Source lines 126-130, `angularDistance`. -/
def angularDistance (angle1 angle2 : K) : K :=
  let diff := |angle1 - angle2|
  if diff > 180 then 360 - diff else diff

/-- Source lines 133-144, `isInRange`. -/
def isInRange (angle rangeStart rangeEnd : K) : Bool :=
  let norm := jsMod (jsMod angle 360 + 360) 360
  let start := jsMod (jsMod rangeStart 360 + 360) 360
  let stop := jsMod (jsMod rangeEnd 360 + 360) 360
  if start < stop then
    decide (norm ≥ start) && decide (norm < stop)
  else
    decide (norm ≥ start) || decide (norm < stop)

/-- Source lines 147-148, `ZODIAC_SIGNS`. -/
def ZODIAC_SIGNS : List String :=
  ["Aries", "Taurus", "Gemini", "Cancer", "Leo", "Virgo",
   "Libra", "Scorpio", "Sagittarius", "Capricorn", "Aquarius", "Pisces"]

/-- Array indexing `xs[i]` with an integral number: `undefined` (`none`) outside
the array. -/
def arrayAt (xs : List String) (i : ℤ) : Option String :=
  if 0 ≤ i then xs[i.toNat]? else none

/-- Source lines 150-153, `getSignFromLongitude`. -/
def getSignFromLongitude (lon : K) : Option String :=
  let norm := jsMod (jsMod lon 360 + 360) 360
  arrayAt ZODIAC_SIGNS ⌊norm / 30⌋

/-- Source line 213, `signBoundaryDist`:
`Math.min(lon % 30, 30 - (lon % 30))`. -/
def signBoundaryDist (lon : K) : K :=
  min (jsMod lon 30) (30 - jsMod lon 30)

end Numeric

/-! ## Test data -/

/-- The `input` object of a test case. -/
structure BirthInput where
  year : ℤ
  month : ℤ
  day : ℤ
  hour : ℤ
  minute : ℤ
  latitude : ℚ
  longitude : ℚ
  tzOffsetMinutes : ℤ
deriving DecidableEq

/-- The `expected` object of a test case; an absent property is `none`
(`false` for the flag `shouldNotCrash`). -/
structure Expected where
  ascendantSign : Option String := none
  ascendantDegree : Option ℚ := none
  ascendantRange : Option (ℚ × ℚ) := none
  ascendantLon : Option ℚ := none
  tolerance : Option ℚ := none
  shouldNotCrash : Bool := false
  sunAscProximity : Option ℚ := none
deriving DecidableEq

/-- One entry of `ASCENDANT_TEST_CASES`. -/
structure TestCase where
  name : String
  input : BirthInput
  expected : Expected
deriving DecidableEq

/-- Source lines 14-123, `ASCENDANT_TEST_CASES`. -/
def ASCENDANT_TEST_CASES : List TestCase :=
  [ { name := "Ben - Hannover 1980"
      input := { year := 1980, month := 6, day := 24, hour := 15, minute := 20,
                 latitude := 52.3759, longitude := 9.7320, tzOffsetMinutes := 120 }
      expected := { ascendantSign := some "Scorpio", ascendantDegree := some 210,
                    ascendantRange := some (210, 240), ascendantLon := some 225.0,
                    tolerance := some 15.0 } },
    { name := "Mitternacht London - Widder ASC"
      input := { year := 2000, month := 3, day := 21, hour := 0, minute := 0,
                 latitude := 51.5074, longitude := -0.1278, tzOffsetMinutes := 0 }
      expected := { ascendantSign := some "Sagittarius", ascendantDegree := some 240,
                    ascendantRange := some (240, 270), tolerance := some 30.0 } },
    { name := "Mittag New York - Taggeburt"
      input := { year := 2000, month := 6, day := 21, hour := 12, minute := 0,
                 latitude := 40.7128, longitude := -74.0060, tzOffsetMinutes := -240 }
      expected := { ascendantSign := some "Virgo", ascendantDegree := some 150,
                    ascendantRange := some (150, 180), tolerance := some 30.0 } },
    { name := "Nordpol-Test - Extreme Breite"
      input := { year := 2000, month := 6, day := 21, hour := 12, minute := 0,
                 latitude := 65.0, longitude := 25.0, tzOffsetMinutes := 120 }
      expected := { shouldNotCrash := true } },
    { name := "Äquator-Test - 0° Breite"
      input := { year := 2000, month := 3, day := 21, hour := 6, minute := 0,
                 latitude := 0.0, longitude := 0.0, tzOffsetMinutes := 0 }
      expected := { shouldNotCrash := true, ascendantSign := some "Aries" } },
    { name := "Sydney - Südhalbkugel"
      input := { year := 2000, month := 12, day := 21, hour := 12, minute := 0,
                 latitude := -33.8688, longitude := 151.2093, tzOffsetMinutes := 660 }
      expected := { shouldNotCrash := true, ascendantSign := some "Pisces" } },
    { name := "Sonnenaufgang München"
      input := { year := 2024, month := 6, day := 21, hour := 5, minute := 17,
                 latitude := 48.1351, longitude := 11.5820, tzOffsetMinutes := 120 }
      expected := { sunAscProximity := some 30.0 } } ]

/-! ## The profile returned by the engine, as far as the test driver reads it -/

/-- A zodiac position (`asc`, `mc`, `sun`).  `longitude` is `none` when the
property is absent or not a number (so that `.toFixed` throws); `sign` is a
string, or `none` when it is `undefined`. -/
structure ZodiacPosition where
  longitude : Option ℚ
  sign : Option String
deriving DecidableEq

/-- The object `profile.western`. -/
structure Western where
  asc : Option ZodiacPosition
  mc : Option ZodiacPosition
  sun : Option ZodiacPosition
  obliquity : Option ℚ
deriving DecidableEq

/-- The object `profile.time`. -/
structure SiderealTime where
  lstDeg : Option ℚ
  lstHours : Option ℚ
  gmstDeg : Option ℚ
deriving DecidableEq

/-- The property `profile.meta.warnings`, as far as lines 275-278 tell values
apart: a falsy value or one without a positive `length` (the block is skipped),
an array of strings (each is printed), or a truthy value with a positive
`length` and no `forEach`, such as a string (the call throws). -/
inductive WarningsValue where
  | absent
  | list (ws : List String)
  | notIterable
deriving DecidableEq

/-- The object `profile.meta`; `valid = false` stands for any falsy value. -/
structure ProfileMeta where
  valid : Bool
  warnings : WarningsValue
deriving DecidableEq

/-- The object returned by `calculateCosmicProfile`. -/
structure CosmicProfile where
  meta : Option ProfileMeta
  western : Option Western
  time : Option SiderealTime
deriving DecidableEq

/-- What one call `calculateCosmicProfile(testCase.input)` does: it throws an
`Error` carrying a message, or it returns a value (`none` for `null` or
`undefined`).  Only `Error` objects are thrown: the handler on lines 287-292
reads `error.message` and `error.stack`. -/
inductive EngineOutcome where
  | throws (message : String)
  | returns (profile : Option CosmicProfile)
deriving DecidableEq

/-! ## The test driver -/

/-- One entry of the `results` array. -/
structure TestResult where
  test : String
  status : String
  detail : Option String := none
  reason : Option String := none
deriving DecidableEq

/-- The mutable variables `passed`, `failed` and `results` of
`runAscendantTests`. -/
structure Tally where
  passed : ℕ
  failed : ℕ
  results : List TestResult
deriving DecidableEq

/-- The counters before the first test case. -/
def Tally.init : Tally := { passed := 0, failed := 0, results := [] }

/-- The statement pair `passed++; results.push(r)`. -/
def Tally.pass (s : Tally) (r : TestResult) : Tally :=
  { s with passed := s.passed + 1, results := s.results ++ [r] }

/-- The statement pair `failed++; results.push(r)`. -/
def Tally.fail (s : Tally) (r : TestResult) : Tally :=
  { s with failed := s.failed + 1, results := s.results ++ [r] }

/-- How a template literal prints a value that may be `undefined`. -/
def showValue (v : Option String) : String := v.getD "undefined"

/-- Source lines 191-196: the crash-safety check. -/
def crashCheck (tc : TestCase) (s : Tally) : Tally :=
  if tc.expected.shouldNotCrash then
    s.pass { test := tc.name, status := "PASSED" }
  else s

/-- Source lines 198-223: the sign check, for an ascendant whose longitude is the
number `ascLon` and whose sign is `ascSign`.  An absent or empty expected sign
is falsy and skips the check. -/
def signCheck (tc : TestCase) (ascLon : ℚ) (ascSign : Option String) (s : Tally) :
    Tally :=
  match tc.expected.ascendantSign with
  | none => s
  | some expectedSign =>
    if expectedSign = "" then s
    else if some expectedSign = ascSign then
      s.pass { test := tc.name, status := "PASSED",
               detail := some ("Sign: " ++ showValue ascSign) }
    else if signBoundaryDist ascLon < 2 then
      s.pass { test := tc.name, status := "PASSED", detail := some "Near cusp" }
    else
      s.fail { test := tc.name, status := "FAILED",
               reason := some ("Sign mismatch: " ++ showValue ascSign ++ " vs "
                                ++ expectedSign) }

/-- Source lines 255-272: the Sun-ascendant block changes no counter; it throws
a `TypeError` when `profile.western.sun` is absent or its longitude is not a
number.  The result is the message of the error thrown, if any; the texts of
the `TypeError` messages are those of the JavaScript engine and are stood in for
by fixed strings here and below. -/
def sunBlockError (tc : TestCase) (w : Western) : Option String :=
  match tc.expected.sunAscProximity with
  | none => none
  | some _ =>
    match w.sun with
    | none => some "TypeError: cannot read property longitude of undefined"
    | some sun =>
      match sun.longitude with
      | none => some "TypeError: sunLon.toFixed is not a function"
      | some _ => none

/-- Source lines 274-278: printing the warnings changes no counter; it throws a
`TypeError` when the value cannot be iterated. -/
def warningsBlockError (m : ProfileMeta) : Option String :=
  match m.warnings with
  | .absent => none
  | .list _ => none
  | .notIterable => some "TypeError: profile.meta.warnings.forEach is not a function"

/-- Source lines 280-285: the debug block changes no counter; it throws a
`TypeError` when one of the values it formats is absent.  The result is the
message of the error thrown, if any. -/
def debugBlockError (p : CosmicProfile) (w : Western) : Option String :=
  match p.time with
  | none => some "TypeError: cannot read property lstDeg of undefined"
  | some t =>
    match t.lstDeg, t.lstHours, t.gmstDeg, w.obliquity with
    | some _, some _, some _, some _ =>
      match w.mc with
      | none => some "TypeError: cannot read property longitude of undefined"
      | some mc =>
        match mc.longitude with
        | none => some "TypeError: mc.longitude.toFixed is not a function"
        | some _ => none
    | _, _, _, _ => some "TypeError: toFixed is not a function"

/-- Source lines 172-285: the body of the `try` block.  The result is the state
of the counters when the body is left, and the message of the error that left
it, if one was thrown.  The range check (lines 225-233) and the precision check
(lines 235-253) only print and cannot throw once `asc.longitude` is a
number. -/
def tryBody (tc : TestCase) (outcome : EngineOutcome) (s : Tally) :
    Tally × Option String :=
  match outcome with
  | .throws message => (s, some message)
  | .returns none =>
    (s.fail { test := tc.name, status := "FAILED", reason := some "Invalid profile" }, none)
  | .returns (some p) =>
    match p.meta with
    | none =>
      (s.fail { test := tc.name, status := "FAILED", reason := some "Invalid profile" }, none)
    | some m =>
      if m.valid = false then
        (s.fail { test := tc.name, status := "FAILED", reason := some "Invalid profile" },
         none)
      else
        match p.western with
        | none => (s, some "TypeError: cannot read property asc of undefined")
        | some w =>
          match w.asc with
          | none => (s, some "TypeError: cannot read property longitude of undefined")
          | some asc =>
            match asc.longitude with
            | none => (s, some "TypeError: asc.longitude.toFixed is not a function")
            | some ascLon =>
              let s1 := crashCheck tc s
              let s2 := signCheck tc ascLon asc.sign s1
              match sunBlockError tc w with
              | some message => (s2, some message)
              | none =>
                match warningsBlockError m with
                | some message => (s2, some message)
                | none => (s2, debugBlockError p w)

/-- Source lines 171-292: one iteration of the `forEach` callback, the `try`
body followed by the `catch` handler (lines 287-292). -/
def runCase (tc : TestCase) (outcome : EngineOutcome) (s : Tally) : Tally :=
  match tryBody tc outcome s with
  | (s1, none) => s1
  | (s1, some message) =>
    s1.fail { test := tc.name, status := "ERROR", reason := some message }

/-- The `forEach` loop over a list of test cases, for an engine given as a
function of the test input. -/
def runCases (engine : BirthInput → EngineOutcome) (cases : List TestCase)
    (s : Tally) : Tally :=
  cases.foldl (fun acc tc => runCase tc (engine tc.input) acc) s

/-- The object returned by `runAscendantTests`. -/
structure Summary where
  total : ℕ
  passed : ℕ
  failed : ℕ
  results : List TestResult
  allPassed : Bool
deriving DecidableEq

/-- Source lines 156-325, `runAscendantTests`, with the engine as a
parameter. -/
def runAscendantTests (engine : BirthInput → EngineOutcome) : Summary :=
  let s := runCases engine ASCENDANT_TEST_CASES Tally.init
  { total := ASCENDANT_TEST_CASES.length
    passed := s.passed
    failed := s.failed
    results := s.results
    allPassed := decide (s.failed = 0) }

/-- Source lines 302-303: the percentage printed in the summary,
`n/total*100`. -/
def percentOf (n total : ℕ) : ℚ := (n : ℚ) / (total : ℚ) * 100

/-- Counters and result log are in step: the entries with status `PASSED` are
counted by `passed`, those with status `FAILED` or `ERROR` by `failed`, and there
are no other entries. -/
def Tally.inStep (s : Tally) : Prop :=
  s.results.countP (fun r => decide (r.status = "PASSED")) = s.passed ∧
  s.results.countP (fun r => decide (r.status = "FAILED") || decide (r.status = "ERROR")) = s.failed ∧
  s.results.length = s.passed + s.failed

/-- A profile in which every property the test driver reads is present and every
number it formats is a number. -/
def CosmicProfile.wellFormed (p : CosmicProfile) : Bool :=
  match p.meta, p.western, p.time with
  | some m, some w, some t =>
    (match m.warnings with
      | .notIterable => false
      | _ => true) &&
    (match w.asc with
      | some a => a.longitude.isSome && a.sign.isSome
      | none => false) &&
    (match w.mc with
      | some a => a.longitude.isSome
      | none => false) &&
    (match w.sun with
      | some a => a.longitude.isSome
      | none => false) &&
    w.obliquity.isSome && t.lstDeg.isSome && t.lstHours.isSome && t.gmstDeg.isSome
  | _, _, _ => false

/-- A well-formed, valid profile with the given ascendant: the engine behaviour
used to evaluate the driver. -/
def sampleProfile (ascLon : ℚ) (ascSign : String) : CosmicProfile :=
  { meta := some { valid := true, warnings := .list [] }
    western := some { asc := some { longitude := some ascLon, sign := some ascSign }
                      mc := some { longitude := some 0, sign := some "Aries" }
                      sun := some { longitude := some 0, sign := some "Aries" }
                      obliquity := some 23.44 }
    time := some { lstDeg := some 0, lstHours := some 0, gmstDeg := some 0 } }

/-- An engine that returns the same well-formed, valid profile (ascendant at
0 degrees, sign `Aries`) for every input. -/
def sampleEngine : BirthInput → EngineOutcome :=
  fun _ => .returns (some (sampleProfile 0 "Aries"))

/-! ## The house angles of the spec (the engine is not part of the sources) -/

/-- Modelled from the spec: the angles of the formulas of
`HouseCalculator.computeAngles` are given in degrees; this is the conversion to
radians for the trigonometric functions. -/
noncomputable def degToRad (d : ℝ) : ℝ := d * Real.pi / 180

/-- Modelled from the spec: the function `atan2 (y, x)` of the formulas of
`HouseCalculator.computeAngles`, with its result in degrees: the argument of the
point `(x, y)`, in `(-180, 180]`. -/
noncomputable def atan2Deg (y x : ℝ) : ℝ := Complex.arg ⟨x, y⟩ * 180 / Real.pi

/-- Modelled from the spec: the midheaven of `HouseCalculator.computeAngles`
(the engine `cosmic-architecture-engine-v3.js` is not part of the sources):
"MC longitude = atan2(sin(LST), cos(LST)·cos(obliquity)), normalized to
[0,360)". -/
noncomputable def mcLongitude (lstDeg obliquityDeg : ℝ) : ℝ :=
  normalize360 (atan2Deg (Real.sin (degToRad lstDeg))
    (Real.cos (degToRad lstDeg) * Real.cos (degToRad obliquityDeg)))

/-- Modelled from the spec: the ascendant formula of
`HouseCalculator.computeAngles` before the quadrant adjustment (the engine
`cosmic-architecture-engine-v3.js` is not part of the sources):
"ASC = atan2( −cos(LST), sin(LST)·cos(obliquity) + tan(geoLatitude)·sin(obliquity) ),
normalized to [0,360)". -/
noncomputable def ascendantRaw (lstDeg geoLatitudeDeg obliquityDeg : ℝ) : ℝ :=
  normalize360 (atan2Deg (-Real.cos (degToRad lstDeg))
    (Real.sin (degToRad lstDeg) * Real.cos (degToRad obliquityDeg)
      + Real.tan (degToRad geoLatitudeDeg) * Real.sin (degToRad obliquityDeg)))

/-- Modelled from the spec: the ascendant of `HouseCalculator.computeAngles`
(the engine `cosmic-architecture-engine-v3.js` is not part of the sources):
"the result lies ~90° after the MC along the ecliptic in the expected rotational
sense; if the raw value is in the wrong half the implementation adds 180° before
normalizing".  The right half is read as the half circle that follows the MC. -/
noncomputable def ascendantLongitude (lstDeg geoLatitudeDeg obliquityDeg : ℝ) : ℝ :=
  let raw := ascendantRaw lstDeg geoLatitudeDeg obliquityDeg
  let mc := mcLongitude lstDeg obliquityDeg
  if normalize360 (raw - mc) < 180 then raw else normalize360 (raw + 180)

/-! ## Auxiliary facts about the numeric helpers -/

section NumericLemmas

variable {K : Type} [LinearOrderedField K] [FloorRing K]

theorem jsTrunc_of_nonneg {x : K} (h : 0 ≤ x) : jsTrunc x = ⌊x⌋ := by
  simp [jsTrunc, h]

theorem jsTrunc_of_neg {x : K} (h : x < 0) : jsTrunc x = ⌈x⌉ := by
  simp [jsTrunc, not_le.mpr h]

theorem jsMod_of_nonneg {a b : K} (hb : 0 < b) (ha : 0 ≤ a) :
    jsMod a b = a - b * (⌊a / b⌋ : K) := by
  unfold jsMod
  rw [jsTrunc_of_nonneg (div_nonneg ha hb.le)]

theorem jsMod_of_neg {a b : K} (hb : 0 < b) (ha : a < 0) :
    jsMod a b = a - b * (⌈a / b⌉ : K) := by
  unfold jsMod
  rw [jsTrunc_of_neg (div_neg_of_neg_of_pos ha hb)]

theorem jsMod_nonneg_bounds {a b : K} (hb : 0 < b) (ha : 0 ≤ a) :
    0 ≤ jsMod a b ∧ jsMod a b < b := by
  rw [jsMod_of_nonneg hb ha]
  have h1 := Int.floor_le (a / b)
  have h2 := Int.lt_floor_add_one (a / b)
  have e : a = b * (a / b) := by field_simp
  constructor
  · nlinarith
  · nlinarith

theorem jsMod_neg_bounds {a b : K} (hb : 0 < b) (ha : a < 0) :
    -b < jsMod a b ∧ jsMod a b ≤ 0 := by
  rw [jsMod_of_neg hb ha]
  have h1 := Int.le_ceil (a / b)
  have h2 := Int.ceil_lt_add_one (a / b)
  have e : a = b * (a / b) := by field_simp
  constructor
  · nlinarith
  · nlinarith

theorem jsMod_add_self_nonneg (x : K) : 0 ≤ jsMod x 360 + 360 := by
  rcases le_or_lt 0 x with h | h
  · have := (jsMod_nonneg_bounds (by norm_num : (0 : K) < 360) h).1
    linarith
  · have := (jsMod_neg_bounds (by norm_num : (0 : K) < 360) h).1
    linarith

/-- The double remainder is the floored remainder modulo 360. -/
theorem normalize360_eq (x : K) : normalize360 x = x - 360 * (⌊x / 360⌋ : K) := by
  have ht : jsMod x 360 = x - 360 * (jsTrunc (x / 360) : K) := rfl
  rw [normalize360, jsMod_of_nonneg (by norm_num) (jsMod_add_self_nonneg x), ht]
  have e : (x - 360 * (jsTrunc (x / 360) : K) + 360) / 360
      = x / 360 + ((1 - jsTrunc (x / 360) : ℤ) : K) := by
    push_cast
    ring
  rw [e, Int.floor_add_int]
  push_cast
  ring

theorem normalize360_bounds (x : K) : 0 ≤ normalize360 x ∧ normalize360 x < 360 := by
  rw [normalize360_eq]
  have h1 := Int.floor_le (x / 360)
  have h2 := Int.lt_floor_add_one (x / 360)
  have e : x = 360 * (x / 360) := by field_simp
  constructor
  · linarith
  · linarith

theorem floor_div_eq_zero {m c : K} (hc : 0 < c) (h0 : 0 ≤ m) (h1 : m < c) :
    ⌊m / c⌋ = 0 := by
  rw [Int.floor_eq_iff]
  constructor
  · simpa using div_nonneg h0 hc.le
  · have : m / c < 1 := (div_lt_one hc).mpr h1
    simpa using this

theorem normalize360_unique {x m : K} {n : ℤ} (h0 : 0 ≤ m) (h1 : m < 360)
    (h : x = m + 360 * (n : K)) : normalize360 x = m := by
  rw [normalize360_eq]
  have e : x / 360 = m / 360 + (n : K) := by rw [h]; ring
  rw [e, Int.floor_add_int, floor_div_eq_zero (by norm_num) h0 h1, h]
  push_cast
  ring

theorem normalize360_of_mem {m : K} (h0 : 0 ≤ m) (h1 : m < 360) : normalize360 m = m :=
  normalize360_unique (n := 0) h0 h1 (by simp)

theorem floor_div_30_bounds {m : K} (h0 : 0 ≤ m) (h1 : m < 360) :
    0 ≤ ⌊m / 30⌋ ∧ ⌊m / 30⌋ ≤ 11 := by
  constructor
  · exact Int.floor_nonneg.mpr (div_nonneg h0 (by norm_num))
  · have : ⌊m / 30⌋ < 12 := by
      rw [Int.floor_lt]
      have : m / 30 < 12 := by
        rw [div_lt_iff₀ (by norm_num)]
        linarith
      exact_mod_cast this
    omega

/-- For `m` in `[0,360)` the quotient `floor (m/30)` is `k` exactly when `m` is
in the sector `[30k, 30k+30)`. -/
theorem floor_div_30_eq_iff {m : K} (k : ℤ) :
    ⌊m / 30⌋ = k ↔ 30 * (k : K) ≤ m ∧ m < 30 * (k : K) + 30 := by
  rw [Int.floor_eq_iff, le_div_iff₀ (by norm_num), div_lt_iff₀ (by norm_num)]
  constructor
  · rintro ⟨a, b⟩
    constructor <;> linarith
  · rintro ⟨a, b⟩
    constructor <;> linarith

theorem getSignFromLongitude_eq (lon : K) :
    getSignFromLongitude lon = arrayAt ZODIAC_SIGNS ⌊normalize360 lon / 30⌋ := rfl

theorem arrayAt_of_nonneg (xs : List String) {i : ℤ} (h : 0 ≤ i) :
    arrayAt xs i = xs[i.toNat]? := by
  simp [arrayAt, h]

/-- The sign table has twelve pairwise different entries. -/
theorem ZODIAC_SIGNS_nodup : ZODIAC_SIGNS.Nodup := by decide

/-- Two in-range lookups of the sign table agree exactly when the indices do. -/
theorem ZODIAC_SIGNS_get_inj {i j : ℕ} (hi : i < 12) (hj : j < 12) :
    ZODIAC_SIGNS[i]? = ZODIAC_SIGNS[j]? ↔ i = j := by
  constructor
  · intro h
    have hi2 : i < ZODIAC_SIGNS.length := hi
    have hj2 : j < ZODIAC_SIGNS.length := hj
    rw [List.getElem?_eq_getElem hi2, List.getElem?_eq_getElem hj2] at h
    exact (List.Nodup.getElem_inj_iff ZODIAC_SIGNS_nodup).mp (Option.some.inj h)
  · rintro rfl
    rfl

end NumericLemmas

/-! ## The helper functions -/

section HelperTheorems

variable {K : Type} [LinearOrderedField K] [FloorRing K]

/-- C3: the range check on the sector `[30k, 30k+30]` and the sign check agree
for every longitude and every sign index `k` in `0..11`, the wrap-around sector
`k = 11` included; in particular for the test data `Scorpio`, `[210, 240]`. -/
theorem isInRange_iff_getSignFromLongitude (lon : K) (k : Fin 12) :
    (isInRange lon (30 * ((k : ℕ) : K)) (30 * ((k : ℕ) : K) + 30) = true ↔
      getSignFromLongitude lon = ZODIAC_SIGNS[(k : ℕ)]?) ∧
    (isInRange lon 210 240 = true ↔ getSignFromLongitude lon = some "Scorpio") := by
  have main : ∀ j : Fin 12,
      (isInRange lon (30 * ((j : ℕ) : K)) (30 * ((j : ℕ) : K) + 30) = true ↔
        getSignFromLongitude lon = ZODIAC_SIGNS[(j : ℕ)]?) := by
    intro j
    obtain ⟨h0, h1⟩ := normalize360_bounds lon
    obtain ⟨f0, f1⟩ := floor_div_30_bounds h0 h1
    have hj : ((j : ℕ) : K) < 12 := by exact_mod_cast j.isLt
    have hj0 : (0 : K) ≤ ((j : ℕ) : K) := Nat.cast_nonneg _
    -- the sign check, as a statement about the sector of `normalize360 lon`
    have hsign : getSignFromLongitude lon = ZODIAC_SIGNS[(j : ℕ)]? ↔
        30 * ((j : ℕ) : K) ≤ normalize360 lon ∧ normalize360 lon < 30 * ((j : ℕ) : K) + 30 := by
      rw [getSignFromLongitude_eq, arrayAt_of_nonneg _ f0,
        ZODIAC_SIGNS_get_inj (by omega) j.isLt]
      have := floor_div_30_eq_iff (m := normalize360 lon) ((j : ℕ) : ℤ)
      push_cast at this
      rw [← this]
      omega
    rw [hsign]
    have hstart : normalize360 (30 * ((j : ℕ) : K)) = 30 * ((j : ℕ) : K) :=
      normalize360_of_mem (by linarith) (by linarith)
    have hunfold : isInRange lon (30 * ((j : ℕ) : K)) (30 * ((j : ℕ) : K) + 30) =
        (if normalize360 (30 * ((j : ℕ) : K)) < normalize360 (30 * ((j : ℕ) : K) + 30) then
          decide (normalize360 lon ≥ normalize360 (30 * ((j : ℕ) : K))) &&
            decide (normalize360 lon < normalize360 (30 * ((j : ℕ) : K) + 30))
        else
          decide (normalize360 lon ≥ normalize360 (30 * ((j : ℕ) : K))) ||
            decide (normalize360 lon < normalize360 (30 * ((j : ℕ) : K) + 30))) := rfl
    rw [hunfold, hstart]
    rcases Nat.lt_or_ge (j : ℕ) 11 with hlt | hge
    · -- an inner sector: the end bound is below 360
      have hj11 : ((j : ℕ) : K) + 1 ≤ 11 := by exact_mod_cast hlt
      have hstop : normalize360 (30 * ((j : ℕ) : K) + 30) = 30 * ((j : ℕ) : K) + 30 :=
        normalize360_of_mem (by linarith) (by linarith)
      rw [hstop, if_pos (by linarith)]
      simp
    · -- Pisces: the end bound 360 normalises to 0 and the range wraps
      have hj11 : (j : ℕ) = 11 := by omega
      have hstop : normalize360 (30 * ((j : ℕ) : K) + 30) = 0 := by
        refine normalize360_unique (n := 1) le_rfl (by norm_num) ?_
        rw [hj11]
        push_cast
        norm_num
      rw [hstop, hj11]
      push_cast
      rw [if_neg (by norm_num)]
      simp only [Bool.or_eq_true, decide_eq_true_eq, ge_iff_le]
      constructor
      · rintro (h | h)
        · exact ⟨h, by linarith⟩
        · exact absurd h (not_lt.mpr h0)
      · rintro ⟨h, _⟩
        exact Or.inl h
  refine ⟨main k, ?_⟩
  have h7 := main ⟨7, by decide⟩
  have e1 : (30 : K) * (((⟨7, by decide⟩ : Fin 12) : ℕ) : K) = 210 := by
    push_cast
    norm_num
  have e2 : ZODIAC_SIGNS[((⟨7, by decide⟩ : Fin 12) : ℕ)]? = some "Scorpio" := rfl
  rw [e1, e2] at h7
  have e3 : (210 : K) + 30 = 240 := by norm_num
  rw [e3] at h7
  exact h7

end HelperTheorems

section AngularDistance

variable {K : Type} [LinearOrderedField K]

/-- C4: for angles in `[0,360)`, `angularDistance` is
`min (|a - b|) (360 - |a - b|)`, lies in `[0,180]`, vanishes exactly when the
angles are equal, and is symmetric. -/
theorem angularDistance_of_normalised (a b : K) (ha0 : 0 ≤ a) (ha1 : a < 360)
    (hb0 : 0 ≤ b) (hb1 : b < 360) :
    angularDistance a b = min |a - b| (360 - |a - b|) ∧
    0 ≤ angularDistance a b ∧ angularDistance a b ≤ 180 ∧
    (angularDistance a b = 0 ↔ a = b) ∧
    angularDistance a b = angularDistance b a := by
  have habs : |a - b| < 360 := by
    rw [abs_lt]
    constructor <;> linarith
  have hnn : 0 ≤ |a - b| := abs_nonneg _
  have hsymm : angularDistance a b = angularDistance b a := by
    unfold angularDistance
    rw [abs_sub_comm a b]
  refine ⟨?_, ?_, ?_, ?_, hsymm⟩
  · unfold angularDistance
    simp only [gt_iff_lt]
    split_ifs with h
    · rw [min_eq_right (by linarith)]
    · rw [min_eq_left (by linarith)]
  · unfold angularDistance
    simp only [gt_iff_lt]
    split_ifs with h <;> linarith
  · unfold angularDistance
    simp only [gt_iff_lt]
    split_ifs with h <;> linarith
  · unfold angularDistance
    simp only [gt_iff_lt]
    split_ifs with h
    · constructor
      · intro h2
        linarith
      · rintro rfl
        simp at h
        linarith
    · rw [abs_eq_zero, sub_eq_zero]

/-- Witness for C4 at the angles 350 and 10. -/
theorem angularDistance_of_normalised_witness :
    ((0 : ℚ) ≤ 350 ∧ (350 : ℚ) < 360 ∧ (0 : ℚ) ≤ 10 ∧ (10 : ℚ) < 360) ∧
    (angularDistance (350 : ℚ) 10 = min |(350 : ℚ) - 10| (360 - |(350 : ℚ) - 10|) ∧
      0 ≤ angularDistance (350 : ℚ) 10 ∧ angularDistance (350 : ℚ) 10 ≤ 180 ∧
      (angularDistance (350 : ℚ) 10 = 0 ↔ (350 : ℚ) = 10) ∧
      angularDistance (350 : ℚ) 10 = angularDistance 10 350) :=
  ⟨by norm_num,
    angularDistance_of_normalised 350 10 (by norm_num) (by norm_num) (by norm_num)
      (by norm_num)⟩

/-- C10: evaluation of `angularDistance` outside `[0,360)`.  The angles 0 and
720 are the same point of the circle, yet the result is the negative number
`-360`; and adding 360 to the first argument changes the result
(`angularDistance 40 0 = 40`, `angularDistance 400 0 = -40`). -/
theorem angularDistance_unnormalised_eval :
    angularDistance (0 : ℚ) 720 = -360 ∧
    angularDistance (0 : ℚ) 720 < 0 ∧
    angularDistance (40 : ℚ) 0 = 40 ∧
    angularDistance ((40 : ℚ) + 360) 0 = -40 := by
  refine ⟨?_, ?_, ?_, ?_⟩ <;> norm_num [angularDistance]

end AngularDistance

/-! ## The test driver -/

section Driver

theorem tryBody_of_wellFormed (tc : TestCase) (p : CosmicProfile) (m : ProfileMeta)
    (w : Western) (asc : ZodiacPosition) (lon : ℚ) (s : Tally)
    (hwf : p.wellFormed = true) (hm : p.meta = some m) (hv : m.valid = true)
    (hw : p.western = some w) (ha : w.asc = some asc) (hl : asc.longitude = some lon) :
    tryBody tc (.returns (some p)) s = (signCheck tc lon asc.sign (crashCheck tc s), none) := by
  obtain ⟨pm, pw, pt⟩ := p
  obtain ⟨wasc, wmc, wsun, wobl⟩ := w
  obtain ⟨alon, asign⟩ := asc
  simp only at hm hw ha hl
  subst hm hw ha hl
  cases pt with
  | none => simp [CosmicProfile.wellFormed] at hwf
  | some t =>
    obtain ⟨t1, t2, t3⟩ := t
    simp only [CosmicProfile.wellFormed, Bool.and_eq_true, Option.isSome_iff_exists] at hwf
    obtain ⟨⟨⟨⟨⟨⟨⟨hwarn, _⟩, hmc⟩, hsun⟩, ⟨o, rfl⟩⟩, ⟨a, rfl⟩⟩, ⟨b, rfl⟩⟩, ⟨c, rfl⟩⟩ := hwf
    have hwb : warningsBlockError m = none := by
      unfold warningsBlockError
      cases hmw : m.warnings with
      | absent => rfl
      | list ws => rfl
      | notIterable => simp [hmw] at hwarn
    cases wmc with
    | none => simp at hmc
    | some mc =>
      cases wsun with
      | none => simp at hsun
      | some sun =>
        obtain ⟨mcl, mcs⟩ := mc
        obtain ⟨sl, ss⟩ := sun
        simp only [Option.isSome_iff_exists] at hmc hsun
        obtain ⟨x, rfl⟩ := hmc
        obtain ⟨y, rfl⟩ := hsun
        simp only [tryBody, hv, sunBlockError, debugBlockError, hwb]
        cases tc.expected.sunAscProximity <;> simp

theorem runCase_of_wellFormed (tc : TestCase) (p : CosmicProfile) (m : ProfileMeta)
    (w : Western) (asc : ZodiacPosition) (lon : ℚ) (s : Tally)
    (hwf : p.wellFormed = true) (hm : p.meta = some m) (hv : m.valid = true)
    (hw : p.western = some w) (ha : w.asc = some asc) (hl : asc.longitude = some lon) :
    runCase tc (.returns (some p)) s = signCheck tc lon asc.sign (crashCheck tc s) := by
  unfold runCase
  rw [tryBody_of_wellFormed tc p m w asc lon s hwf hm hv hw ha hl]

/-- C6: a case whose engine call returns `null`/`undefined`, a profile without
`meta`, or a profile whose `meta.valid` is false adds one to `failed`, nothing to
`passed`, and the single result `FAILED` / `Invalid profile`, whatever the
expected fields are; a case whose engine call throws adds one to `failed`,
nothing to `passed`, and a single result with status `ERROR`. -/
theorem untrusted_profile_counts_as_failure (tc : TestCase) (s : Tally) :
    (runCase tc (.returns none) s =
      { passed := s.passed, failed := s.failed + 1,
        results := s.results ++
          [{ test := tc.name, status := "FAILED", reason := some "Invalid profile" }] }) ∧
    (∀ (w : Option Western) (t : Option SiderealTime),
      runCase tc (.returns (some { meta := none, western := w, time := t })) s =
      { passed := s.passed, failed := s.failed + 1,
        results := s.results ++
          [{ test := tc.name, status := "FAILED", reason := some "Invalid profile" }] }) ∧
    (∀ (warnings : WarningsValue) (w : Option Western) (t : Option SiderealTime),
      runCase tc (.returns (some { meta := some { valid := false, warnings := warnings },
                                   western := w, time := t })) s =
      { passed := s.passed, failed := s.failed + 1,
        results := s.results ++
          [{ test := tc.name, status := "FAILED", reason := some "Invalid profile" }] }) ∧
    (∀ message : String,
      runCase tc (.throws message) s =
      { passed := s.passed, failed := s.failed + 1,
        results := s.results ++
          [{ test := tc.name, status := "ERROR", reason := some message }] }) := by
  refine ⟨rfl, fun _ _ => rfl, fun _ _ _ => rfl, fun _ => rfl⟩

theorem Tally.inStep_init : Tally.init.inStep := by
  simp [Tally.inStep, Tally.init]

theorem Tally.inStep_pass {s : Tally} (h : s.inStep) (r : TestResult)
    (hr : r.status = "PASSED") : (s.pass r).inStep := by
  obtain ⟨h1, h2, h3⟩ := h
  refine ⟨?_, ?_, ?_⟩
  · simp [Tally.pass, List.countP_append, List.countP_cons, hr, h1]
  · simp [Tally.pass, List.countP_append, List.countP_cons, hr, h2]
  · simp [Tally.pass, h3]
    omega

theorem Tally.inStep_fail {s : Tally} (h : s.inStep) (r : TestResult)
    (hr : r.status = "FAILED" ∨ r.status = "ERROR") : (s.fail r).inStep := by
  obtain ⟨h1, h2, h3⟩ := h
  have hp : r.status ≠ "PASSED" := by
    rcases hr with hr | hr <;> rw [hr] <;> decide
  refine ⟨?_, ?_, ?_⟩
  · simp [Tally.fail, List.countP_append, List.countP_cons, hp, h1]
  · simp [Tally.fail, List.countP_append, List.countP_cons, hr, h2]
  · simp [Tally.fail, h3]
    omega

theorem crashCheck_inStep (tc : TestCase) {s : Tally} (h : s.inStep) :
    (crashCheck tc s).inStep := by
  unfold crashCheck
  split
  · exact Tally.inStep_pass h _ rfl
  · exact h

theorem signCheck_inStep (tc : TestCase) (lon : ℚ) (sign : Option String) {s : Tally}
    (h : s.inStep) : (signCheck tc lon sign s).inStep := by
  unfold signCheck
  split
  · exact h
  · split_ifs
    · exact h
    · exact Tally.inStep_pass h _ rfl
    · exact Tally.inStep_pass h _ rfl
    · exact Tally.inStep_fail h _ (Or.inl rfl)

theorem tryBody_inStep (tc : TestCase) (outcome : EngineOutcome) {s : Tally}
    (h : s.inStep) : (tryBody tc outcome s).1.inStep := by
  unfold tryBody
  split
  · exact h
  · exact Tally.inStep_fail h _ (Or.inl rfl)
  · split
    · exact Tally.inStep_fail h _ (Or.inl rfl)
    · split_ifs
      · exact Tally.inStep_fail h _ (Or.inl rfl)
      · split
        · exact h
        · split
          · exact h
          · split
            · exact h
            · simp only
              split
              · exact signCheck_inStep _ _ _ (crashCheck_inStep _ h)
              · split
                · exact signCheck_inStep _ _ _ (crashCheck_inStep _ h)
                · exact signCheck_inStep _ _ _ (crashCheck_inStep _ h)

theorem runCase_inStep (tc : TestCase) (outcome : EngineOutcome) {s : Tally}
    (h : s.inStep) : (runCase tc outcome s).inStep := by
  have hb := tryBody_inStep tc outcome h
  unfold runCase
  split
  · rename_i s1 heq
    rw [heq] at hb
    exact hb
  · rename_i s1 message heq
    rw [heq] at hb
    exact Tally.inStep_fail hb _ (Or.inr rfl)

theorem runCases_inStep (engine : BirthInput → EngineOutcome) (cases : List TestCase)
    {s : Tally} (h : s.inStep) : (runCases engine cases s).inStep := by
  induction cases generalizing s with
  | nil => exact h
  | cons tc rest ih => exact ih (runCase_inStep tc (engine tc.input) h)

/-- C9: after any prefix of the test cases, for every engine behaviour, the
entries of `results` with status `PASSED` are as many as `passed`, those with
status `FAILED` or `ERROR` as many as `failed`, and `results.length` is
`passed + failed`; the returned `allPassed` is true exactly when `failed = 0`,
which is exactly when no entry of `results` has status `FAILED` or `ERROR`. -/
theorem counters_match_result_log (engine : BirthInput → EngineOutcome) (n : ℕ) :
    ((runCases engine (ASCENDANT_TEST_CASES.take n) Tally.init).results.countP
        (fun r => decide (r.status = "PASSED")) =
      (runCases engine (ASCENDANT_TEST_CASES.take n) Tally.init).passed ∧
     (runCases engine (ASCENDANT_TEST_CASES.take n) Tally.init).results.countP
        (fun r => decide (r.status = "FAILED") || decide (r.status = "ERROR")) =
      (runCases engine (ASCENDANT_TEST_CASES.take n) Tally.init).failed ∧
     (runCases engine (ASCENDANT_TEST_CASES.take n) Tally.init).results.length =
      (runCases engine (ASCENDANT_TEST_CASES.take n) Tally.init).passed +
        (runCases engine (ASCENDANT_TEST_CASES.take n) Tally.init).failed) ∧
    ((runAscendantTests engine).allPassed = true ↔ (runAscendantTests engine).failed = 0) ∧
    ((runAscendantTests engine).failed = 0 ↔
      ∀ r ∈ (runAscendantTests engine).results, r.status ≠ "FAILED" ∧ r.status ≠ "ERROR") := by
  refine ⟨runCases_inStep engine _ Tally.inStep_init, ?_, ?_⟩
  · simp [runAscendantTests]
  · obtain ⟨_, h2, _⟩ := runCases_inStep engine ASCENDANT_TEST_CASES Tally.inStep_init
    show (runCases engine ASCENDANT_TEST_CASES Tally.init).failed = 0 ↔
      ∀ r ∈ (runCases engine ASCENDANT_TEST_CASES Tally.init).results,
        r.status ≠ "FAILED" ∧ r.status ≠ "ERROR"
    rw [← h2, List.countP_eq_zero]
    constructor
    · intro h r hr
      have := h r hr
      simpa [not_or] using this
    · intro h r hr
      have := h r hr
      simpa [not_or] using this

theorem signBoundaryDist_zero : signBoundaryDist (0 : ℚ) = 0 := by
  simp [signBoundaryDist, jsMod, jsTrunc]

theorem runCase_sampleEngine (tc : TestCase) (input : BirthInput) (s : Tally) :
    runCase tc (sampleEngine input) s =
      signCheck tc 0 (some "Aries") (crashCheck tc s) :=
  runCase_of_wellFormed tc (sampleProfile 0 "Aries") { valid := true, warnings := .list [] }
    { asc := some { longitude := some 0, sign := some "Aries" }
      mc := some { longitude := some 0, sign := some "Aries" }
      sun := some { longitude := some 0, sign := some "Aries" }
      obliquity := some 23.44 }
    { longitude := some 0, sign := some "Aries" } 0 s rfl rfl rfl rfl rfl rfl

/-- C8: evaluation of `runAscendantTests` on an engine that returns a well-formed
valid profile (ascendant at 0 degrees, sign `Aries`) for every input.  The seven
test cases yield eight counted checks: the two cases that carry both
`shouldNotCrash` and `ascendantSign` are counted twice, the case that carries
only `sunAscProximity` is not counted at all.  So `passed + failed` is 8, not
`total = 7`, and the printed pass percentage is above 100. -/
theorem summary_counts_sampleEngine :
    (runAscendantTests sampleEngine).total = 7 ∧
    (runAscendantTests sampleEngine).passed = 8 ∧
    (runAscendantTests sampleEngine).failed = 0 ∧
    (runAscendantTests sampleEngine).passed + (runAscendantTests sampleEngine).failed ≠
      (runAscendantTests sampleEngine).total ∧
    (runAscendantTests sampleEngine).results.length = 8 ∧
    percentOf (runAscendantTests sampleEngine).passed (runAscendantTests sampleEngine).total
      = 800 / 7 ∧
    100 < percentOf (runAscendantTests sampleEngine).passed
      (runAscendantTests sampleEngine).total := by
  have hrun : runCases sampleEngine ASCENDANT_TEST_CASES Tally.init =
      { passed := 8, failed := 0,
        results :=
          [{ test := "Ben - Hannover 1980", status := "PASSED", detail := some "Near cusp" },
           { test := "Mitternacht London - Widder ASC", status := "PASSED",
             detail := some "Near cusp" },
           { test := "Mittag New York - Taggeburt", status := "PASSED",
             detail := some "Near cusp" },
           { test := "Nordpol-Test - Extreme Breite", status := "PASSED" },
           { test := "Äquator-Test - 0° Breite", status := "PASSED" },
           { test := "Äquator-Test - 0° Breite", status := "PASSED",
             detail := some "Sign: Aries" },
           { test := "Sydney - Südhalbkugel", status := "PASSED" },
           { test := "Sydney - Südhalbkugel", status := "PASSED",
             detail := some "Near cusp" }] } := by
    simp only [runCases, ASCENDANT_TEST_CASES, List.foldl, runCase_sampleEngine]
    simp [signCheck, crashCheck, Tally.pass, Tally.init, signBoundaryDist_zero, showValue]
  have ht : (runAscendantTests sampleEngine).total = 7 := rfl
  have hp : (runAscendantTests sampleEngine).passed = 8 := by
    show (runCases sampleEngine ASCENDANT_TEST_CASES Tally.init).passed = 8
    rw [hrun]
  have hf : (runAscendantTests sampleEngine).failed = 0 := by
    show (runCases sampleEngine ASCENDANT_TEST_CASES Tally.init).failed = 0
    rw [hrun]
  have hl : (runAscendantTests sampleEngine).results.length = 8 := by
    show (runCases sampleEngine ASCENDANT_TEST_CASES Tally.init).results.length = 8
    rw [hrun]
    rfl
  refine ⟨ht, hp, hf, ?_, hl, ?_, ?_⟩
  · rw [hp, hf, ht]
    decide
  · rw [hp, ht]
    norm_num [percentOf]
  · rw [hp, ht]
    norm_num [percentOf]

end Driver

/-! ## The literal scenario of the spec: LST 0h, obliquity 23.44, latitude 51.5 N -/

section Scenario

theorem sin_obliquity_bounds :
    0 < Real.sin (degToRad 23.44) ∧ Real.sin (degToRad 23.44) < 0.4103 := by
  have hpi := Real.pi_gt_three
  have hpi2 := Real.pi_lt_d2
  have hpos : 0 < degToRad 23.44 := by unfold degToRad; positivity
  constructor
  · apply Real.sin_pos_of_pos_of_lt_pi hpos
    unfold degToRad
    linarith
  · have := Real.sin_lt hpos
    unfold degToRad at this ⊢
    linarith

theorem tan_latitude_bounds :
    0 < Real.tan (degToRad 51.5) ∧ Real.tan (degToRad 51.5) < 1.32 := by
  have hpi := Real.pi_gt_d2
  have hpi2 := Real.pi_lt_d2
  -- b is the complement 38.5 degrees
  set b : ℝ := degToRad 38.5 with hb
  have hab : degToRad 51.5 = Real.pi / 2 - b := by
    rw [hb]; unfold degToRad; ring
  have hb0 : 0.671 < b := by rw [hb]; unfold degToRad; linarith
  have hb1 : b < 0.674 := by rw [hb]; unfold degToRad; linarith
  have habs : |b| ≤ 1 := by rw [abs_le]; constructor <;> linarith
  have hc := Real.cos_bound habs
  have hs := Real.sin_bound habs
  rw [abs_le] at hc hs
  have habs4 : |b| ^ 4 = b ^ 4 := by rw [abs_of_pos (by linarith)]
  rw [habs4] at hc hs
  rw [hab, Real.tan_eq_sin_div_cos, Real.sin_pi_div_two_sub, Real.cos_pi_div_two_sub]
  have hb2 : b ^ 2 < 0.4543 := by nlinarith
  have hb2l : 0.4502 < b ^ 2 := by nlinarith
  have hb3 : b ^ 3 < 0.3062 := by nlinarith
  have hb4 : b ^ 4 < 0.2064 := by nlinarith
  have hsin : 0.6 < Real.sin b := by linarith [hs.1]
  have hcos : Real.cos b < 0.79 := by linarith [hc.2]
  have hcos0 : 0 < Real.cos b := by linarith [hc.1]
  constructor
  · exact div_pos hcos0 (by linarith)
  · rw [div_lt_iff₀ (by linarith)]
    linarith

theorem atan2Deg_scenario_bounds :
    -90 < atan2Deg (-1) (Real.tan (degToRad 51.5) * Real.sin (degToRad 23.44)) ∧
    atan2Deg (-1) (Real.tan (degToRad 51.5) * Real.sin (degToRad 23.44)) < -60 := by
  obtain ⟨s0, s1⟩ := sin_obliquity_bounds
  obtain ⟨t0, t1⟩ := tan_latitude_bounds
  set X : ℝ := Real.tan (degToRad 51.5) * Real.sin (degToRad 23.44) with hX
  have hX0 : 0 < X := mul_pos t0 s0
  have hX1 : X < 0.5417 := by nlinarith
  have hpi : 0 < Real.pi := Real.pi_pos
  set z : ℂ := ⟨X, -1⟩ with hz
  have hneg : Complex.arg z < 0 := Complex.arg_neg_iff.mpr (by simp [hz])
  have habs : |Complex.arg z| < Real.pi / 2 :=
    Complex.abs_arg_lt_pi_div_two_iff.mpr (Or.inl (by simpa [hz] using hX0))
  rw [abs_lt] at habs
  have htan : Real.tan (Complex.arg z) = -1 / X := by
    rw [Complex.tan_arg]
  have hlt : Complex.arg z < -(Real.pi / 3) := by
    by_contra hcon
    rw [not_lt] at hcon
    have hmono : Real.tan (-(Real.pi / 3)) ≤ Real.tan (Complex.arg z) := by
      rcases eq_or_lt_of_le hcon with h | h
      · rw [h]
      · exact (Real.tan_lt_tan_of_lt_of_lt_pi_div_two (by linarith) habs.2 h).le
    rw [Real.tan_neg, Real.tan_pi_div_three, htan] at hmono
    have hsq : Real.sqrt 3 * Real.sqrt 3 = 3 := Real.mul_self_sqrt (by norm_num)
    have hs3 : 0 < Real.sqrt 3 := Real.sqrt_pos.mpr (by norm_num)
    have h1 : 1 / X ≤ Real.sqrt 3 := by
      have : -1 / X = -(1 / X) := by ring
      rw [this] at hmono
      linarith
    rw [div_le_iff₀ hX0] at h1
    nlinarith
  unfold atan2Deg
  constructor
  · rw [lt_div_iff₀ hpi]
    nlinarith [habs.1]
  · rw [div_lt_iff₀ hpi]
    nlinarith

theorem mcLongitude_scenario : mcLongitude 0 23.44 = 0 := by
  have hpi := Real.pi_gt_three
  have hpi2 := Real.pi_lt_d2
  have hcos : 0 ≤ Real.cos (degToRad 23.44) := by
    apply Real.cos_nonneg_of_neg_pi_div_two_le_of_le
    · unfold degToRad; linarith
    · unfold degToRad; linarith
  have harg : Complex.arg ⟨Real.cos (degToRad 23.44), 0⟩ = 0 :=
    Complex.arg_eq_zero_iff.mpr ⟨hcos, rfl⟩
  unfold mcLongitude atan2Deg
  have h0 : degToRad 0 = 0 := by simp [degToRad]
  rw [h0, Real.sin_zero, Real.cos_zero, one_mul, harg]
  simp only [zero_mul, zero_div]
  exact normalize360_of_mem le_rfl (by norm_num)

theorem ascendantRaw_scenario :
    ascendantRaw 0 51.5 23.44 =
      atan2Deg (-1) (Real.tan (degToRad 51.5) * Real.sin (degToRad 23.44)) + 360 := by
  obtain ⟨a, b⟩ := atan2Deg_scenario_bounds
  unfold ascendantRaw
  have h0 : degToRad 0 = 0 := by simp [degToRad]
  rw [h0, Real.sin_zero, Real.cos_zero, zero_mul, zero_add]
  refine normalize360_unique (n := -1) (by linarith) (by linarith) ?_
  push_cast
  ring

theorem atan2Deg_scenario_bounds_pos :
    60 < atan2Deg 1 (Real.tan (degToRad 51.5) * Real.sin (degToRad 23.44)) ∧
    atan2Deg 1 (Real.tan (degToRad 51.5) * Real.sin (degToRad 23.44)) < 90 := by
  obtain ⟨s0, s1⟩ := sin_obliquity_bounds
  obtain ⟨t0, t1⟩ := tan_latitude_bounds
  set X : ℝ := Real.tan (degToRad 51.5) * Real.sin (degToRad 23.44) with hX
  have hX0 : 0 < X := mul_pos t0 s0
  have hX1 : X < 0.5417 := by nlinarith
  have hpi : 0 < Real.pi := Real.pi_pos
  set z : ℂ := ⟨X, 1⟩ with hz
  have habs : |Complex.arg z| < Real.pi / 2 :=
    Complex.abs_arg_lt_pi_div_two_iff.mpr (Or.inl (by simpa [hz] using hX0))
  rw [abs_lt] at habs
  have htan : Real.tan (Complex.arg z) = 1 / X := by
    rw [Complex.tan_arg]
  have hlt : Real.pi / 3 < Complex.arg z := by
    by_contra hcon
    rw [not_lt] at hcon
    have hmono : Real.tan (Complex.arg z) ≤ Real.tan (Real.pi / 3) := by
      rcases eq_or_lt_of_le hcon with h | h
      · rw [h]
      · exact (Real.tan_lt_tan_of_lt_of_lt_pi_div_two habs.1 (by linarith) h).le
    rw [Real.tan_pi_div_three, htan] at hmono
    have hsq : Real.sqrt 3 * Real.sqrt 3 = 3 := Real.mul_self_sqrt (by norm_num)
    have hs3 : 0 < Real.sqrt 3 := Real.sqrt_pos.mpr (by norm_num)
    rw [div_le_iff₀ hX0] at hmono
    nlinarith
  unfold atan2Deg
  constructor
  · rw [lt_div_iff₀ hpi]
    nlinarith
  · rw [div_lt_iff₀ hpi]
    nlinarith [habs.2]

theorem mcLongitude_at_lst_12h : mcLongitude 180 23.44 = 180 := by
  have hpi := Real.pi_gt_three
  have hpi2 := Real.pi_lt_d2
  have hcos : 0 < Real.cos (degToRad 23.44) := by
    apply Real.cos_pos_of_mem_Ioo
    constructor
    · unfold degToRad; linarith
    · unfold degToRad; linarith
  have harg : Complex.arg ⟨-1 * Real.cos (degToRad 23.44), 0⟩ = Real.pi :=
    Complex.arg_eq_pi_iff.mpr ⟨by simpa using hcos, rfl⟩
  unfold mcLongitude atan2Deg
  have h0 : degToRad 180 = Real.pi := by unfold degToRad; ring
  rw [h0, Real.sin_pi, Real.cos_pi, harg]
  have : Real.pi * 180 / Real.pi = 180 := by field_simp
  rw [this]
  exact normalize360_of_mem (by norm_num) (by norm_num)

/-- The same formula at LST 12h (180 degrees), the sidereal time near local
midnight at the March equinox: the MC is at 180, the raw value lies in
`(60, 90)`, in the wrong half, and the ascendant falls within the Sagittarius
range `[240, 270)`. -/
theorem ascendant_at_lst_12h_sagittarius :
    mcLongitude 180 23.44 = 180 ∧
    (60 < ascendantRaw 180 51.5 23.44 ∧ ascendantRaw 180 51.5 23.44 < 90) ∧
    ascendantLongitude 180 51.5 23.44 = ascendantRaw 180 51.5 23.44 + 180 ∧
    (240 ≤ ascendantLongitude 180 51.5 23.44 ∧ ascendantLongitude 180 51.5 23.44 < 270) := by
  obtain ⟨a, b⟩ := atan2Deg_scenario_bounds_pos
  have hmc := mcLongitude_at_lst_12h
  have hraw : ascendantRaw 180 51.5 23.44 =
      atan2Deg 1 (Real.tan (degToRad 51.5) * Real.sin (degToRad 23.44)) := by
    unfold ascendantRaw
    have h0 : degToRad 180 = Real.pi := by unfold degToRad; ring
    rw [h0, Real.sin_pi, Real.cos_pi, zero_mul, zero_add, neg_neg]
    exact normalize360_of_mem (by linarith) (by linarith)
  have hr0 : 60 < ascendantRaw 180 51.5 23.44 := by rw [hraw]; exact a
  have hr1 : ascendantRaw 180 51.5 23.44 < 90 := by rw [hraw]; exact b
  have hasc : ascendantLongitude 180 51.5 23.44 = ascendantRaw 180 51.5 23.44 + 180 := by
    unfold ascendantLongitude
    simp only [hmc]
    have hn : normalize360 (ascendantRaw 180 51.5 23.44 - 180)
        = ascendantRaw 180 51.5 23.44 + 180 := by
      refine normalize360_unique (n := -1) (by linarith) (by linarith) ?_
      push_cast
      ring
    rw [hn, if_neg (by linarith)]
    exact normalize360_of_mem (by linarith) (by linarith)
  refine ⟨hmc, ⟨hr0, hr1⟩, hasc, ?_, ?_⟩
  · rw [hasc]
    linarith
  · rw [hasc]
    linarith

/-- The scenario evaluated: the MC is 0, the raw formula value lies in
`(270, 300)`, it is in the wrong half and is moved by 180. -/
theorem ascendant_scenario_eval :
    mcLongitude 0 23.44 = 0 ∧
    (270 < ascendantRaw 0 51.5 23.44 ∧ ascendantRaw 0 51.5 23.44 < 300) ∧
    ascendantLongitude 0 51.5 23.44 = ascendantRaw 0 51.5 23.44 - 180 := by
  obtain ⟨a, b⟩ := atan2Deg_scenario_bounds
  have hraw := ascendantRaw_scenario
  have hmc := mcLongitude_scenario
  have hr0 : 270 < ascendantRaw 0 51.5 23.44 := by rw [hraw]; linarith
  have hr1 : ascendantRaw 0 51.5 23.44 < 300 := by rw [hraw]; linarith
  refine ⟨hmc, ⟨hr0, hr1⟩, ?_⟩
  unfold ascendantLongitude
  simp only [hmc, sub_zero]
  rw [normalize360_of_mem (by linarith) (by linarith), if_neg (by linarith)]
  refine normalize360_unique (n := 1) (by linarith) (by linarith) ?_
  push_cast
  ring

/-- C7, as stated, fails: with LST 0h, obliquity 23.44 and latitude 51.5 N the
ascendant of the stated formula is not in the Sagittarius range `[240, 270)`,
neither after the move by 180 degrees nor before it. -/
theorem ascendant_scenario_not_sagittarius :
    ¬ (240 ≤ ascendantLongitude 0 51.5 23.44 ∧ ascendantLongitude 0 51.5 23.44 < 270) ∧
    ¬ (240 ≤ ascendantRaw 0 51.5 23.44 ∧ ascendantRaw 0 51.5 23.44 < 270) := by
  obtain ⟨_, ⟨h0, h1⟩, h⟩ := ascendant_scenario_eval
  constructor
  · rintro ⟨h2, _⟩
    linarith
  · rintro ⟨_, h2⟩
    linarith

/-- C7, amended: with LST 0h, obliquity 23.44 and latitude 51.5 N the MC is at 0,
the raw value of the stated formula lies in `(270, 300)`, in the wrong half
relative to the MC, so it is moved by 180 degrees, and the ascendant falls
within the Cancer range `[90, 120)`. -/
theorem ascendant_scenario_cancer :
    mcLongitude 0 23.44 = 0 ∧
    (270 < ascendantRaw 0 51.5 23.44 ∧ ascendantRaw 0 51.5 23.44 < 300) ∧
    ascendantLongitude 0 51.5 23.44 = ascendantRaw 0 51.5 23.44 - 180 ∧
    (90 ≤ ascendantLongitude 0 51.5 23.44 ∧ ascendantLongitude 0 51.5 23.44 < 120) := by
  obtain ⟨hmc, ⟨h0, h1⟩, h⟩ := ascendant_scenario_eval
  refine ⟨hmc, ⟨h0, h1⟩, h, ?_, ?_⟩
  · rw [h]
    linarith
  · rw [h]
    linarith

end Scenario

end CosmicEngine
